import Mathlib

/-!
Verification of `archive_newsletters.py` (afv22/instapaper).

The script is a linear batch job: load a JSON config, exchange xAuth
credentials for an OAuth token pair, list bookmarks tagged "newsletter",
filter those older than 7 days, archive each one, print a summary and set
an exit status.  We embed each Python function as a pure Lean function.
All external effects (the config file, the three HTTP endpoints, the
current clock) are inputs gathered in an `Env`; the observable behaviour
of a run (exit code, stdout lines, stderr lines, which network calls were
issued) is the `ProcResult` returned by `main`.

Modelling conventions:
* `sys.exit(1)` and an unhandled Python exception both end the process
  with exit status 1 and diagnostics on stderr; both are modelled as a
  `ProcResult` with `exitCode = 1` and a non-empty `stderr` (an unhandled
  exception's stderr line starts with "Traceback").
* Aware `datetime` values compare exactly like their epoch timestamps, so
  times are `Int` seconds and `timedelta(days=7)` is `7 * 86400` seconds.
* `response.json()` of the list endpoint is `[user_obj, bookmark1, ...]`.
  The code never inspects the first element (it is dropped by `data[1:]`),
  so in `Env` the array is typed `List Bookmark`; shape-independence of
  the drop is proved via the polymorphic `get_newsletter_bookmarks`.
-/

namespace ArchiveNewsletters

/-- A bookmark record as used by the script: `bookmark_id`, optional
`title` (the script defaults it to "Untitled"), and `time` in Unix epoch
seconds UTC. -/
structure Bookmark where
  bookmark_id : Int
  title : Option String
  time : Int
deriving DecidableEq, Repr

/-- An HTTP response as far as the script observes one: a status code and
a body text. -/
structure HttpResponse where
  status : Nat
  text : String
deriving DecidableEq, Repr

/-- The response of the list endpoint: status, body text (used only for
error logging) and the decoded JSON array on success. -/
structure ListResponse where
  status : Nat
  text : String
  data : List Bookmark
deriving DecidableEq, Repr

/-- The state of the configuration file `instapaper_config.json`: absent,
present but not valid JSON, or parsed into a string-keyed object. -/
inductive ConfigSource where
  | absent
  | malformed
  | parsed (fields : List (String × String))
deriving DecidableEq, Repr

/-- All external inputs of one run. `archiveStatus` gives the HTTP status
the archive endpoint returns for a given `bookmark_id`; `now` is the value
of `datetime.now(timezone.utc)` in epoch seconds. -/
structure Env where
  config : ConfigSource
  tokenResp : HttpResponse
  listResp : ListResponse
  archiveStatus : Int → Nat
  now : Int

/-- The observable outcome of a run: process exit code, the lines printed
to stdout and stderr, how many token-exchange and list requests were sent,
and the sequence of `bookmark_id`s sent to the archive endpoint. -/
structure ProcResult where
  exitCode : Nat
  stdout : List String
  stderr : List String
  tokenCalls : Nat
  listCalls : Nat
  archiveCalls : List Int
deriving DecidableEq, Repr

/-- Lookup in a JSON object / Python dict built from a key-value list.
Later bindings shadow earlier ones, as in `dict(...)` and JSON parsing. -/
def dictGet (kvs : List (String × String)) (k : String) : Option String :=
  match kvs with
  | [] => none
  | kv :: rest =>
    match dictGet rest k with
    | some v => some v
    | none => if kv.1 = k then some kv.2 else none

/-- Outcome of `load_config` (lines 20-29): a deliberate `sys.exit(1)`
with messages, an unhandled `json.decoder.JSONDecodeError`, or the parsed
object. -/
inductive ConfigResult where
  | fatal (stderr : List String)
  | exc (msg : String)
  | ok (fields : List (String × String))
deriving Repr

/-- Embedding of `load_config`: if the file does not exist it prints three
messages to stderr and exits 1; `json.load` raises on malformed input;
otherwise the parsed object is returned. -/
def load_config : ConfigSource → ConfigResult
  | .absent => .fatal
      ["Error: Configuration file not found at instapaper_config.json",
       "Please create instapaper_config.json with your credentials.",
       "See instapaper_config.example.json for format."]
  | .malformed => .exc "json.decoder.JSONDecodeError"
  | .parsed fields => .ok fields

/-- Splitting a list of characters at every occurrence of `sep`, auxiliary
form: returns the chunk before the first separator and the remaining
chunks. -/
def splitAux (sep : Char) : List Char → List Char × List (List Char)
  | [] => ([], [])
  | c :: cs =>
    let r := splitAux sep cs
    if c = sep then ([], r.1 :: r.2) else (c :: r.1, r.2)

/-- Embedding of Python `str.split(sep)` for a one-character separator:
splits at every occurrence, keeping empty chunks, and returns one chunk
more than there are separators. -/
def splitOnChar (sep : Char) (l : List Char) : List (List Char) :=
  (splitAux sep l).1 :: (splitAux sep l).2

/-- Embedding of `param.split('=')` as consumed by `dict(...)`: a segment
contributes a pair exactly when the split has exactly two parts (one `=`);
otherwise `dict` raises `ValueError`. -/
def splitKV (p : List Char) : Option (List Char × List Char) :=
  match splitOnChar '=' p with
  | [k, v] => some (k, v)
  | _ => none

/-- Option-valued map over a list; `none` as soon as one element fails,
mirroring the generator inside `dict(...)` raising on the first bad
segment. -/
def optionMapList (f : α → Option β) : List α → Option (List β)
  | [] => some []
  | a :: l =>
    match f a with
    | none => none
    | some b => (optionMapList f l).map (fun bs => b :: bs)

/-- Embedding of line 55, `dict(param.split('=') for param in
response.text.split('&'))`: succeeds iff every `&`-separated segment
splits into exactly two parts at `=`. -/
def parseTokenPairs (text : String) : Option (List (String × String)) :=
  optionMapList
    (fun p => (splitKV p).map (fun kv => (String.mk kv.1, String.mk kv.2)))
    (splitOnChar '&' text.toList)

/-- Embedding of lines 55-56: parse the form-encoded body and look up
`oauth_token` and `oauth_token_secret`; `none` models the unhandled
`ValueError` / `KeyError`. -/
def getTokens (text : String) : Option (String × String) :=
  match parseTokenPairs text with
  | none => none
  | some kvs =>
    match dictGet kvs "oauth_token", dictGet kvs "oauth_token_secret" with
    | some t, some s => some (t, s)
    | _, _ => none

/-- Outcome of `get_access_token`: a deliberate `sys.exit(1)` with stderr
lines, an unhandled exception while parsing a 200 body, or the token
pair. -/
inductive TokenResult where
  | fatal (stderr : List String)
  | exc (msg : String)
  | ok (token secret : String)
deriving Repr

/-- Embedding of `get_access_token` (lines 32-56), applied to the response
of the token endpoint: a status other than 200 prints the status and the
body to stderr and exits 1; a 200 body is parsed, raising on bad shape or
missing keys. -/
def get_access_token (resp : HttpResponse) : TokenResult :=
  if resp.status ≠ 200 then
    .fatal ["Error getting access token: " ++ toString resp.status, resp.text]
  else
    match getTokens resp.text with
    | some (t, s) => .ok t s
    | none => .exc "ValueError or KeyError while parsing token response"

/-- Embedding of `get_newsletter_bookmarks` (lines 59-80), applied to the
list endpoint response: on a non-200 status it logs two diagnostic lines
and returns the empty list; on 200 it returns `data[1:]` when the array
has more than one element and `[]` otherwise.  Polymorphic in the element
type because the code never inspects the elements here. -/
def get_newsletter_bookmarks (status : Nat) (text : String) (data : List α) :
    List α × List String :=
  if status ≠ 200 then
    ([], ["Error fetching bookmarks: " ++ toString status, text])
  else
    (if data.length > 1 then data.drop 1 else [], [])

/-- Embedding of `archive_bookmark` (lines 83-88): the attempt succeeds
iff the archive endpoint answers with status exactly 200. -/
def archive_bookmark (archiveStatus : Int → Nat) (bookmark_id : Int) : Bool :=
  archiveStatus bookmark_id == 200

/-- The cutoff of line 123: `datetime.now(timezone.utc) -
timedelta(days=7)` in epoch seconds. -/
def cutoffTime (now : Int) : Int := now - 7 * 86400

/-- Embedding of the filtering loop (lines 124-130): keep exactly the
bookmarks whose `time` is strictly below the cutoff. -/
def filterOld (now : Int) (bs : List Bookmark) : List Bookmark :=
  bs.filter (fun b => decide (b.time < cutoffTime now))

/-- Accumulated effects of the archive loop (lines 139-153): the two
counters, the ids sent to the archive endpoint in order, and the stdout /
stderr lines printed. -/
structure LoopResult where
  archived : Nat
  failed : Nat
  calls : List Int
  out : List String
  err : List String
deriving DecidableEq, Repr

/-- Embedding of the archive loop (lines 142-151): one archive request per
record, in list order; on success increment `archived` and print a line
with the title (default "Untitled"), otherwise increment `failed` and
print to stderr. -/
def archiveLoop (arch : Int → Nat) : List Bookmark → LoopResult
  | [] => ⟨0, 0, [], [], []⟩
  | b :: rest =>
    let title := b.title.getD "Untitled"
    let r := archiveLoop arch rest
    if archive_bookmark arch b.bookmark_id then
      ⟨r.archived + 1, r.failed, b.bookmark_id :: r.calls,
       ("✓ Archived: " ++ title) :: r.out, r.err⟩
    else
      ⟨r.archived, r.failed + 1, b.bookmark_id :: r.calls,
       r.out, ("✗ Failed to archive: " ++ title) :: r.err⟩

/-- Embedding of lines 96-99: read the three required config fields (a
missing one raises `KeyError`); the optional `password` is read with a
default and does not affect control flow. -/
def requiredFields (fields : List (String × String)) :
    Option (String × String × String) :=
  match dictGet fields "consumer_key", dictGet fields "consumer_secret",
        dictGet fields "username" with
  | some ck, some cs, some u => some (ck, cs, u)
  | _, _, _ => none

/-- The working set the run operates on: the list part of the result of
`get_newsletter_bookmarks` applied to the list endpoint's response. -/
def listedBookmarks (env : Env) : List Bookmark :=
  (get_newsletter_bookmarks env.listResp.status env.listResp.text
    env.listResp.data).1

/-- The stderr lines of the listing step (empty on a 200 response). -/
def listerDiagnostics (env : Env) : List String :=
  (get_newsletter_bookmarks env.listResp.status env.listResp.text
    env.listResp.data).2

/-- The qualifying records, `old_bookmarks` in the source: listed
bookmarks older than the cutoff. -/
def qualifying (env : Env) : List Bookmark :=
  filterOld env.now (listedBookmarks env)

/-- Embedding of `main` from line 114 on, once authentication succeeded:
fetch the bookmarks, print the count, return early when there are none,
filter by age, return early when none qualify, otherwise run the archive
loop, print the summary and exit 1 iff any attempt failed. -/
def mainAfterAuth (env : Env) : ProcResult :=
  let out0 := ["Authenticating with Instapaper...",
               "Fetching newsletter bookmarks..."]
  let bookmarks := listedBookmarks env
  let out1 := out0 ++
    ["Found " ++ toString bookmarks.length ++
     " bookmarks with \x27newsletter\x27 tag"]
  if bookmarks = [] then
    ⟨0, out1 ++ ["No bookmarks to process"], listerDiagnostics env, 1, 1, []⟩
  else
    let old := qualifying env
    let out2 := out1 ++
      ["Found " ++ toString old.length ++ " newsletters older than 7 days"]
    if old = [] then
      ⟨0, out2 ++ ["No bookmarks to archive"], listerDiagnostics env, 1, 1, []⟩
    else
      let r := archiveLoop env.archiveStatus old
      ⟨if r.failed > 0 then 1 else 0,
       out2 ++ r.out ++
         ["\nSummary: " ++ toString r.archived ++ " archived, " ++
          toString r.failed ++ " failed"],
       listerDiagnostics env ++ r.err, 1, 1, r.calls⟩

/-- Embedding of `main` (lines 91-156).  Config loading happens before any
network call; a non-200 token response exits 1 before the list endpoint is
contacted; the OAuth session construction itself has no observable
behaviour beyond signing the later requests, which are part of `Env`. -/
def main (env : Env) : ProcResult :=
  match load_config env.config with
  | .fatal errs => ⟨1, [], errs, 0, 0, []⟩
  | .exc msg =>
    ⟨1, [], ["Traceback (most recent call last): " ++ msg], 0, 0, []⟩
  | .ok fields =>
    match requiredFields fields with
    | none =>
      ⟨1, [], ["Traceback (most recent call last): KeyError"], 0, 0, []⟩
    | some _ =>
      match get_access_token env.tokenResp with
      | .fatal errs =>
        ⟨1, ["Authenticating with Instapaper..."], errs, 1, 0, []⟩
      | .exc msg =>
        ⟨1, ["Authenticating with Instapaper..."],
         ["Traceback (most recent call last): " ++ msg], 1, 0, []⟩
      | .ok _ _ => mainAfterAuth env

/-- Number of qualifying records whose archive call returns 200. -/
def archivedCount (env : Env) : Nat :=
  (qualifying env).countP (fun b => env.archiveStatus b.bookmark_id == 200)

/-- Number of qualifying records whose archive call returns a status other
than 200. -/
def failedCount (env : Env) : Nat :=
  (qualifying env).countP (fun b => env.archiveStatus b.bookmark_id != 200)

/-- A run whose configuration has all required fields and whose token
exchange succeeds, so that control reaches the listing step. -/
def GoodAuth (env : Env) : Prop :=
  (∃ fields, env.config = .parsed fields ∧ (requiredFields fields).isSome)
    ∧ env.tokenResp.status = 200 ∧ (getTokens env.tokenResp.text).isSome

/-! Helper lemmas -/

lemma splitAux_snd_length (sep : Char) (l : List Char) :
    (splitAux sep l).2.length = l.count sep := by
  induction l with
  | nil => simp [splitAux]
  | cons c cs ih =>
    by_cases h : c = sep
    · simp [splitAux, h, ih, List.count_cons]
    · simp [splitAux, h, ih, List.count_cons]

lemma splitOnChar_length (sep : Char) (l : List Char) :
    (splitOnChar sep l).length = l.count sep + 1 := by
  simp [splitOnChar, splitAux_snd_length]

lemma splitKV_isSome (p : List Char) :
    (splitKV p).isSome ↔ p.count '=' = 1 := by
  have hlen := splitOnChar_length '=' p
  rcases hs : splitOnChar '=' p with _ | ⟨k, _ | ⟨v, _ | ⟨w, rest⟩⟩⟩
  · rw [hs] at hlen
    simp at hlen
  · rw [hs] at hlen
    simp at hlen
    simp [splitKV, hs]
    omega
  · rw [hs] at hlen
    simp at hlen
    simp [splitKV, hs]
    omega
  · rw [hs] at hlen
    simp at hlen
    simp [splitKV, hs]
    omega

lemma optionMapList_isSome (f : α → Option β) (l : List α) :
    (optionMapList f l).isSome ↔ ∀ a ∈ l, (f a).isSome := by
  induction l with
  | nil => simp [optionMapList]
  | cons a l ih =>
    cases hf : f a with
    | none => simp [optionMapList, hf]
    | some b =>
      cases hm : optionMapList f l with
      | none => simp [optionMapList, hf, hm, ← ih]
      | some bs => simp [optionMapList, hf, hm, ← ih]

lemma isSome_map_eq (f : α → β) (o : Option α) :
    (o.map f).isSome = o.isSome := by
  cases o <;> rfl

lemma parseTokenPairs_isSome (text : String) :
    (parseTokenPairs text).isSome ↔
      ∀ seg ∈ splitOnChar '&' text.toList, seg.count '=' = 1 := by
  rw [parseTokenPairs, optionMapList_isSome]
  constructor
  · intro h seg hseg
    have := h seg hseg
    rw [isSome_map_eq] at this
    exact (splitKV_isSome seg).mp this
  · intro h seg hseg
    rw [isSome_map_eq]
    exact (splitKV_isSome seg).mpr (h seg hseg)

lemma archiveLoop_spec (arch : Int → Nat) (l : List Bookmark) :
    (archiveLoop arch l).calls = l.map (fun b => b.bookmark_id)
    ∧ (archiveLoop arch l).archived = l.countP (fun b => arch b.bookmark_id == 200)
    ∧ (archiveLoop arch l).failed = l.countP (fun b => arch b.bookmark_id != 200)
    ∧ (archiveLoop arch l).out =
        (l.filter (fun b => arch b.bookmark_id == 200)).map
          (fun b => "✓ Archived: " ++ b.title.getD "Untitled")
    ∧ (archiveLoop arch l).err =
        (l.filter (fun b => arch b.bookmark_id != 200)).map
          (fun b => "✗ Failed to archive: " ++ b.title.getD "Untitled") := by
  induction l with
  | nil => simp [archiveLoop]
  | cons b rest ih =>
    obtain ⟨h1, h2, h3, h4, h5⟩ := ih
    by_cases h : arch b.bookmark_id = 200
    · simp [archiveLoop, archive_bookmark, h, h1, h2, h3, h4, h5,
        List.countP_cons]
    · simp [archiveLoop, archive_bookmark, h, h1, h2, h3, h4, h5,
        List.countP_cons]

lemma archiveLoop_count_sum (arch : Int → Nat) (l : List Bookmark) :
    (archiveLoop arch l).archived + (archiveLoop arch l).failed = l.length := by
  induction l with
  | nil => simp [archiveLoop]
  | cons b rest ih =>
    by_cases h : arch b.bookmark_id = 200 <;>
      simp [archiveLoop, archive_bookmark, h] <;> omega

lemma get_access_token_of_ok (resp : HttpResponse) (h : resp.status = 200)
    (t s : String) (hp : getTokens resp.text = some (t, s)) :
    get_access_token resp = TokenResult.ok t s := by
  simp [get_access_token, h, hp]

lemma main_eq_afterAuth (env : Env) (h : GoodAuth env) :
    main env = mainAfterAuth env := by
  obtain ⟨⟨fields, hcfg, hreq⟩, hst, htok⟩ := h
  obtain ⟨trip, htrip⟩ := Option.isSome_iff_exists.mp hreq
  obtain ⟨⟨t, s⟩, htk⟩ := Option.isSome_iff_exists.mp htok
  rw [main, hcfg]
  simp only [load_config, htrip, get_access_token_of_ok env.tokenResp hst t s htk]

/-! Concrete fixtures used by the witnesses -/

/-- A configuration object holding the three required fields. -/
def goodCfg : List (String × String) :=
  [("consumer_key", "ck"), ("consumer_secret", "cs"), ("username", "u")]

/-- A successful token-exchange response. -/
def goodTokenResp : HttpResponse :=
  ⟨200, "oauth_token=tok&oauth_token_secret=sec"⟩

/-- Stand-in for the account descriptor at position 0 of the list
response; the script never inspects it. -/
def userObj : Bookmark := ⟨0, none, 0⟩

/-- An environment with a good configuration and a good token exchange,
parameterised by the listing data, listing status, archive endpoint
behaviour and clock. -/
def mkEnv (data : List Bookmark) (listStatus : Nat) (arch : Int → Nat)
    (now : Int) : Env :=
  ⟨.parsed goodCfg, goodTokenResp, ⟨listStatus, "", data⟩, arch, now⟩

lemma goodAuth_mkEnv (data : List Bookmark) (ls : Nat) (arch : Int → Nat)
    (now : Int) : GoodAuth (mkEnv data ls arch now) :=
  ⟨⟨goodCfg, rfl, (by decide : (requiredFields goodCfg).isSome)⟩, rfl,
   (by decide : (getTokens goodTokenResp.text).isSome)⟩

/-- An old bookmark (scenario B). -/
def bkOld : Bookmark := ⟨42, some "A newsletter", 100⟩

/-- Scenario B: one listed bookmark, old, whose archive call fails. -/
def envB : Env := mkEnv [userObj, bkOld] 200 (fun _ => 500) 1000000

/-- Old bookmarks for scenario A. -/
def bk1 : Bookmark := ⟨1, some "one", 100⟩

/-- Second old bookmark for scenario A. -/
def bk2 : Bookmark := ⟨2, none, 200⟩

/-- A recent bookmark, younger than the cutoff. -/
def bk3 : Bookmark := ⟨3, some "three", 999999⟩

/-- Scenario A: three listed bookmarks, two older than the cutoff, every
archive call succeeding. -/
def envA : Env := mkEnv [userObj, bk1, bk2, bk3] 200 (fun _ => 200) 1000000

/-- Scenario C: the listing returns no bookmarks at all. -/
def envC : Env := mkEnv [] 200 (fun _ => 200) 0

/-- Scenario D: the listing endpoint answers 500. -/
def envD : Env := mkEnv [] 500 (fun _ => 200) 0

/-- A bookmark sitting exactly at the cutoff of `envBd`. -/
def bkBd : Bookmark := ⟨9, none, 395200⟩

/-- Environment whose cutoff is exactly `bkBd.time`. -/
def envBd : Env := mkEnv [userObj, bkBd] 200 (fun _ => 200) 1000000

/-! Claim theorems -/

/-- C1: a record of the listed working set is selected for archiving iff
its `time` (epoch seconds UTC) is strictly below `now - 7 days`; a record
whose time equals the cutoff exactly is not selected. -/
theorem age_filter_strict (env : Env) (b : Bookmark) :
    (b ∈ qualifying env ↔
      b ∈ listedBookmarks env ∧ b.time < env.now - 7 * 86400)
    ∧ (b.time = env.now - 7 * 86400 → b ∉ qualifying env) := by
  constructor
  · simp [qualifying, filterOld, List.mem_filter, cutoffTime]
  · intro hb hmem
    rw [qualifying, filterOld, List.mem_filter] at hmem
    have h2 := of_decide_eq_true hmem.2
    rw [cutoffTime] at h2
    omega

/-- Witness for C1: in `envBd` the cutoff is exactly 395200 and `bkBd`
with that very timestamp is not selected, while the strictly older `bkOld`
of `envB` is. -/
theorem age_filter_strict_witness :
    bkBd ∉ qualifying envBd ∧ bkOld ∈ qualifying envB :=
  ⟨(age_filter_strict envBd bkBd).2 (by decide),
   (age_filter_strict envB bkOld).1.mpr ⟨by decide, by decide⟩⟩

lemma run_summary_core (env : Env) (hga : GoodAuth env)
    (hq : qualifying env ≠ []) :
    ((main env).exitCode = 1 ↔ 0 < failedCount env)
    ∧ ((main env).exitCode = 0 ↔ failedCount env = 0)
    ∧ ("\nSummary: " ++ toString (archivedCount env) ++ " archived, " ++
        toString (failedCount env) ++ " failed") ∈ (main env).stdout := by
  rw [main_eq_afterAuth env hga]
  have hb : listedBookmarks env ≠ [] := by
    intro h
    exact hq (by simp [qualifying, h, filterOld])
  have hfail : (archiveLoop env.archiveStatus (qualifying env)).failed
      = failedCount env :=
    ((archiveLoop_spec env.archiveStatus (qualifying env)).2.2.1).symm ▸ rfl
  have harch : (archiveLoop env.archiveStatus (qualifying env)).archived
      = archivedCount env :=
    ((archiveLoop_spec env.archiveStatus (qualifying env)).2.1).symm ▸ rfl
  simp only [mainAfterAuth, if_neg hb, if_neg hq, hfail, harch]
  refine ⟨?_, ?_, ?_⟩
  · by_cases hf : failedCount env > 0
    · simp [hf]
    · simp [hf]
  · by_cases hf : failedCount env > 0
    · simp [hf]
      omega
    · simp [hf]
      omega
  · simp [List.mem_append]

/-- C2: once the run reaches the archive loop, the exit status is 1 iff
at least one qualifying record failed to archive and 0 iff every attempt
succeeded, and the printed summary names the two counts. -/
theorem exit_status_reflects_failures (env : Env) (hga : GoodAuth env)
    (hq : qualifying env ≠ []) :
    ((main env).exitCode = 1 ↔ 0 < failedCount env)
    ∧ ((main env).exitCode = 0 ↔ failedCount env = 0)
    ∧ ("\nSummary: " ++ toString (archivedCount env) ++ " archived, " ++
        toString (failedCount env) ++ " failed") ∈ (main env).stdout :=
  run_summary_core env hga hq

/-- Witness for C2: scenario B — one qualifying bookmark whose archive
call returns 500 yields exit status 1 and the summary line
"0 archived, 1 failed". -/
theorem exit_status_reflects_failures_witness :
    (main envB).exitCode = 1
    ∧ "\nSummary: 0 archived, 1 failed" ∈ (main envB).stdout := by
  have h := exit_status_reflects_failures envB
    (goodAuth_mkEnv [userObj, bkOld] 200 (fun _ => 500) 1000000) (by decide)
  exact ⟨h.1.mpr (by decide), by decide⟩

/-- C3: a non-200 listing response makes the lister log two diagnostic
lines to stderr and yield the empty working set, and the run then ends
with exit status 0 and no archive calls, exactly like a run that listed
zero bookmarks. -/
theorem listing_failure_is_soft (env : Env) (hga : GoodAuth env)
    (hls : env.listResp.status ≠ 200) :
    listedBookmarks env = []
    ∧ ("Error fetching bookmarks: " ++ toString env.listResp.status)
        ∈ (main env).stderr
    ∧ env.listResp.text ∈ (main env).stderr
    ∧ "No bookmarks to process" ∈ (main env).stdout
    ∧ (main env).exitCode = 0
    ∧ (main env).archiveCalls = [] := by
  have hl : listedBookmarks env = [] := by
    simp [listedBookmarks, get_newsletter_bookmarks, hls]
  have hd : listerDiagnostics env =
      ["Error fetching bookmarks: " ++ toString env.listResp.status,
       env.listResp.text] := by
    simp [listerDiagnostics, get_newsletter_bookmarks, hls]
  rw [main_eq_afterAuth env hga]
  refine ⟨hl, ?_⟩
  simp [mainAfterAuth, hl, hd]

/-- Witness for C3: scenario D — the listing endpoint answers 500 and the
run still exits 0 with no archive calls. -/
theorem listing_failure_is_soft_witness :
    listedBookmarks envD = []
    ∧ "Error fetching bookmarks: 500" ∈ (main envD).stderr
    ∧ (main envD).exitCode = 0
    ∧ (main envD).archiveCalls = [] := by
  have h := listing_failure_is_soft envD
    (goodAuth_mkEnv [] 500 (fun _ => 200) 0) (by decide)
  exact ⟨h.1, by decide, h.2.2.2.2.1, h.2.2.2.2.2⟩

/-- A configuration that is absent, malformed, or missing one of the
required fields `consumer_key`, `consumer_secret`, `username`. -/
def BadConfig (c : ConfigSource) : Prop :=
  c = .absent ∨ c = .malformed ∨
    ∃ fields, c = .parsed fields ∧ requiredFields fields = none

/-- C4: an absent, malformed, or incomplete configuration ends the
process with exit status 1 and a message on stderr before any network
call is issued. -/
theorem bad_config_fatal_before_network (env : Env)
    (h : BadConfig env.config) :
    (main env).exitCode = 1
    ∧ (main env).stderr ≠ []
    ∧ (main env).tokenCalls = 0
    ∧ (main env).listCalls = 0
    ∧ (main env).archiveCalls = [] := by
  rcases h with h | h | ⟨fields, h, hreq⟩
  · rw [main, h]; simp [load_config]
  · rw [main, h]; simp [load_config]
  · rw [main, h]; simp [load_config, hreq]

/-- Witness for C4: a configuration missing `consumer_secret` and
`username` is rejected with exit 1, stderr output, and zero network
calls. -/
theorem bad_config_fatal_before_network_witness :
    (main ⟨.parsed [("consumer_key", "k")], goodTokenResp,
      ⟨200, "", []⟩, fun _ => 200, 0⟩).exitCode = 1
    ∧ (main ⟨.parsed [("consumer_key", "k")], goodTokenResp,
      ⟨200, "", []⟩, fun _ => 200, 0⟩).tokenCalls = 0 := by
  have h := bad_config_fatal_before_network
    ⟨.parsed [("consumer_key", "k")], goodTokenResp, ⟨200, "", []⟩,
      fun _ => 200, 0⟩
    (Or.inr (Or.inr ⟨[("consumer_key", "k")], rfl,
      (by decide : requiredFields [("consumer_key", "k")] = none)⟩))
  exact ⟨h.1, h.2.2.1⟩

/-- C5: a token-exchange response with a status other than 200 ends the
process with exit status 1, echoes the response body to stderr, and no
list or archive request is ever issued; the single token request is not
retried. -/
theorem token_failure_fatal (env : Env) (fields : List (String × String))
    (hcfg : env.config = .parsed fields)
    (hreq : (requiredFields fields).isSome)
    (hst : env.tokenResp.status ≠ 200) :
    (main env).exitCode = 1
    ∧ env.tokenResp.text ∈ (main env).stderr
    ∧ (main env).tokenCalls = 1
    ∧ (main env).listCalls = 0
    ∧ (main env).archiveCalls = [] := by
  obtain ⟨trip, htrip⟩ := Option.isSome_iff_exists.mp hreq
  rw [main, hcfg]
  simp [load_config, htrip, get_access_token, hst]

/-- Witness for C5: a 401 token response with body "Invalid credentials"
exits 1 with the body on stderr and no listing call. -/
theorem token_failure_fatal_witness :
    (main ⟨.parsed goodCfg, ⟨401, "Invalid credentials"⟩,
      ⟨200, "", []⟩, fun _ => 200, 0⟩).exitCode = 1
    ∧ "Invalid credentials" ∈ (main ⟨.parsed goodCfg,
      ⟨401, "Invalid credentials"⟩, ⟨200, "", []⟩,
      fun _ => 200, 0⟩).stderr
    ∧ (main ⟨.parsed goodCfg, ⟨401, "Invalid credentials"⟩,
      ⟨200, "", []⟩, fun _ => 200, 0⟩).listCalls = 0 := by
  have h := token_failure_fatal
    ⟨.parsed goodCfg, ⟨401, "Invalid credentials"⟩, ⟨200, "", []⟩,
      fun _ => 200, 0⟩
    goodCfg rfl (by decide) (by decide)
  exact ⟨h.1, h.2.1, h.2.2.2.1⟩

/-- C6: on a successfully parsed listing response the lister returns
exactly the elements at positions 1 onward, whatever their shape (the
function is parametric in the element type), and the empty list when the
array has at most one element. -/
theorem lister_drops_first_element {α : Type} (text : String)
    (data : List α) :
    (get_newsletter_bookmarks 200 text data).1 = data.drop 1
    ∧ (data.length ≤ 1 → (get_newsletter_bookmarks 200 text data).1 = []) := by
  have hdrop : (get_newsletter_bookmarks 200 text data).1 = data.drop 1 := by
    by_cases h : data.length > 1
    · simp [get_newsletter_bookmarks, h]
    · have hnil : data.drop 1 = [] := by
        cases data with
        | nil => rfl
        | cons a l =>
          simp at h
          simp [h]
      simp [get_newsletter_bookmarks, h, hnil]
  refine ⟨hdrop, fun h => ?_⟩
  rw [hdrop, List.drop_eq_nil_iff]
  exact h

/-- Witness for C6: a one-element array yields the empty working set, and
a three-element array yields its last two elements. -/
theorem lister_drops_first_element_witness :
    (get_newsletter_bookmarks 200 "" [(5 : Nat)]).1 = []
    ∧ (get_newsletter_bookmarks 200 "" [(5 : Nat), 6, 7]).1 = [6, 7] :=
  ⟨(lister_drops_first_element "" [5]).2 (by decide),
   (lister_drops_first_element "" [5, 6, 7]).1⟩

/-- C7: a run that lists zero bookmarks prints "No bookmarks to process",
issues no archive call and exits 0; a run whose qualifying records all
archive successfully prints the summary with a zero failure count and
exits 0. -/
theorem empty_and_success_runs :
    (∀ env : Env, GoodAuth env → listedBookmarks env = [] →
      "No bookmarks to process" ∈ (main env).stdout
      ∧ (main env).archiveCalls = []
      ∧ (main env).exitCode = 0)
    ∧ (∀ env : Env, GoodAuth env → qualifying env ≠ [] →
      failedCount env = 0 →
      ("\nSummary: " ++ toString (archivedCount env) ++ " archived, " ++
        toString (failedCount env) ++ " failed") ∈ (main env).stdout
      ∧ (main env).exitCode = 0) := by
  constructor
  · intro env hga hl
    rw [main_eq_afterAuth env hga]
    simp [mainAfterAuth, hl]
  · intro env hga hq hf
    have h := run_summary_core env hga hq
    exact ⟨h.2.2, h.2.1.mpr hf⟩

/-- Witness for C7: scenario C (no bookmarks listed) and scenario A
(three listed, two qualify, both archive successfully, summary
"2 archived, 0 failed"). -/
theorem empty_and_success_runs_witness :
    ("No bookmarks to process" ∈ (main envC).stdout
      ∧ (main envC).archiveCalls = []
      ∧ (main envC).exitCode = 0)
    ∧ ((main envA).exitCode = 0
      ∧ "\nSummary: 2 archived, 0 failed" ∈ (main envA).stdout
      ∧ (listedBookmarks envA).length = 3
      ∧ (qualifying envA).length = 2) := by
  refine ⟨empty_and_success_runs.1 envC
    (goodAuth_mkEnv [] 200 (fun _ => 200) 0) (by decide), ?_, by decide,
    by decide, by decide⟩
  exact (empty_and_success_runs.2 envA
    (goodAuth_mkEnv [userObj, bk1, bk2, bk3] 200 (fun _ => 200) 1000000)
    (by decide) (by decide)).2

/-- C8: the archive loop sends exactly one request per record, in list
order; the two counters sum to the number of records; each attempt is
logged with the record's title, defaulting to "Untitled"; and in a run
the requests sent are exactly the ids of the qualifying records. -/
theorem archive_loop_invariant :
    (∀ (arch : Int → Nat) (old : List Bookmark),
      (archiveLoop arch old).calls = old.map (fun b => b.bookmark_id)
      ∧ (archiveLoop arch old).archived + (archiveLoop arch old).failed
          = old.length
      ∧ (archiveLoop arch old).out =
          (old.filter (fun b => arch b.bookmark_id == 200)).map
            (fun b => "✓ Archived: " ++ b.title.getD "Untitled")
      ∧ (archiveLoop arch old).err =
          (old.filter (fun b => arch b.bookmark_id != 200)).map
            (fun b => "✗ Failed to archive: " ++ b.title.getD "Untitled"))
    ∧ (∀ env : Env, GoodAuth env →
        (main env).archiveCalls =
          (qualifying env).map (fun b => b.bookmark_id)) := by
  constructor
  · intro arch old
    exact ⟨(archiveLoop_spec arch old).1, archiveLoop_count_sum arch old,
      (archiveLoop_spec arch old).2.2.2.1,
      (archiveLoop_spec arch old).2.2.2.2⟩
  · intro env hga
    rw [main_eq_afterAuth env hga]
    by_cases hb : listedBookmarks env = []
    · have hq : qualifying env = [] := by simp [qualifying, hb, filterOld]
      simp [mainAfterAuth, hb, hq]
    · by_cases hq : qualifying env = []
      · simp [mainAfterAuth, hb, hq]
      · simp [mainAfterAuth, hb, hq,
          (archiveLoop_spec env.archiveStatus (qualifying env)).1]

/-- Witness for C8: in scenario A the archive requests are exactly the
ids 1 and 2 of the two qualifying records, in order. -/
theorem archive_loop_invariant_witness :
    (main envA).archiveCalls = [1, 2] := by
  have h := archive_loop_invariant.2 envA
    (goodAuth_mkEnv [userObj, bk1, bk2, bk3] 200 (fun _ => 200) 1000000)
  rw [h]
  decide

/-- C9: an archive attempt counts as a success iff the endpoint's status
is exactly 200; other 2xx statuses such as 201 and 204 count as
failures. -/
theorem archive_success_iff_status_200 :
    (∀ (arch : Int → Nat) (i : Int),
      archive_bookmark arch i = true ↔ arch i = 200)
    ∧ archive_bookmark (fun _ => 201) 0 = false
    ∧ archive_bookmark (fun _ => 204) 0 = false := by
  refine ⟨fun arch i => ?_, by decide, by decide⟩
  simp [archive_bookmark]

/-- Witness for C9: a 200 status is a success, a 201 status is not. -/
theorem archive_success_iff_status_200_witness :
    archive_bookmark (fun _ => 200) 7 = true :=
  (archive_success_iff_status_200.1 (fun _ => 200) 7).mpr rfl

/-- C10: parsing a 200 token response is partial — the form parse
succeeds iff every `&`-separated segment of the body contains exactly one
`=`, the whole parse succeeds iff additionally both token keys are
present, and a body for which it fails makes `get_access_token` raise
(the `exc` outcome) rather than take the diagnostic-and-exit path. -/
theorem token_body_parse_shape (resp : HttpResponse)
    (h200 : resp.status = 200) :
    ((parseTokenPairs resp.text).isSome ↔
      ∀ seg ∈ splitOnChar '&' resp.text.toList, seg.count '=' = 1)
    ∧ ((getTokens resp.text).isSome ↔
      ∃ kvs, parseTokenPairs resp.text = some kvs
        ∧ (dictGet kvs "oauth_token").isSome
        ∧ (dictGet kvs "oauth_token_secret").isSome)
    ∧ (getTokens resp.text = none →
        get_access_token resp =
          TokenResult.exc "ValueError or KeyError while parsing token response")
    ∧ (∀ t s, getTokens resp.text = some (t, s) →
        get_access_token resp = TokenResult.ok t s) := by
  refine ⟨parseTokenPairs_isSome resp.text, ?_, ?_, ?_⟩
  · rw [getTokens]
    cases hp : parseTokenPairs resp.text with
    | none => simp
    | some kvs =>
      cases ht : dictGet kvs "oauth_token" with
      | none => simp [ht]
      | some t =>
        cases hs : dictGet kvs "oauth_token_secret" with
        | none => simp [ht, hs]
        | some s => simp [ht, hs]
  · intro hn
    simp [get_access_token, h200, hn]
  · intro t s hp
    simp [get_access_token, h200, hp]

/-- Witness for C10: the body "garbage" (no `=` at all) makes the 200
token response raise, while a well-shaped body yields the token pair. -/
theorem token_body_parse_shape_witness :
    get_access_token ⟨200, "garbage"⟩ =
      TokenResult.exc "ValueError or KeyError while parsing token response"
    ∧ get_access_token goodTokenResp = TokenResult.ok "tok" "sec" :=
  ⟨(token_body_parse_shape ⟨200, "garbage"⟩ rfl).2.2.1 (by decide),
   (token_body_parse_shape goodTokenResp rfl).2.2.2 "tok" "sec" (by decide)⟩

end ArchiveNewsletters
